import Mathlib

/-!
Shallow embedding of the `hdf5` building block of hpc-container-maker
(`src/hpccm/building_blocks/hdf5.py`).

The building block assembles, at construction time, an ordered list of
shell commands (download/untar/configure/build/check/install/ldcache/cleanup),
an environment-variable mapping, and a list of container instructions;
a separate `runtime` method projects the runtime-only instruction list.

The step generators live in template mixin classes
(`hpccm.templates.ConfigureMake`, `tar`, `wget`, `rm`, `ldconfig`) and the
instruction primitives (`comment`, `packages`, `copy`, `shell`, `environment`)
live in other modules that are not part of the given source tree; per the
spec they are opaque parameterized step descriptors, so they are modelled
here as inductive constructors carrying exactly the parameters the hdf5
code passes to them.
-/

set_option autoImplicit false

namespace Hpccm

/-- The `linux_distro` enumeration from `hpccm.common`, read through the
process-wide `hpccm.config.g_linux_distro`.  `hdf5.__distro` recognizes
`UBUNTU` and `CENTOS`; `other` stands for any unrecognized value, which
hits the `raise RuntimeError` branch. -/
inductive LinuxDistro where
  | ubuntu
  | centos
  | other
deriving DecidableEq, Repr

/-- Modelled from the spec: the toolchain object (`hpccm.toolchain.toolchain`)
is opaque to the engine; it is only threaded into the configure step. -/
inductive Toolchain where
  | default
deriving DecidableEq, Repr

/-- Modelled from the spec: StepDescriptor kinds produced by the template
mixins (not under the given source tree).  Each constructor carries exactly
the parameters `hdf5.py` passes to the corresponding `*_step` call
(`configure_step` additionally reads `self.configure_opts` and `self.prefix`,
per the spec's contract for the Configure step). -/
inductive Step where
  | download (url : String) (directory : String)
  | untar (tarball : String) (directory : String)
  | configure (directory : String) (opts : List String) (tc : Toolchain)
      (installRoot : String)
  | build
  | check
  | install
  | ldcache (directory : String)
  | cleanup (items : List String)
deriving DecidableEq, Repr

/-- Modelled from the spec: the container-instruction primitives
(`comment`, `packages`, `copy`, `shell`, `environment`), opaque to the
engine, carrying exactly the parameters `hdf5.py` passes. `copy` carries
the optional `_from` stage identifier used by `hdf5.runtime`. -/
inductive Instruction where
  | comment (text : String)
  | packages (ospackages : List String)
  | copy (fromStage : Option String) (src : String) (dest : String)
  | shell (commands : List Step)
  | environment (vars : List (String × String))
deriving DecidableEq, Repr

/-- Errors aborting construction.  `invalidVersion` models the uncaught
exception raised when `re.match(r'(?P<major>\d+)\.(?P<minor>\d+)', version)`
returns `None` (hdf5.py line 186); `unknownDistro` models
`RuntimeError('Unknown Linux distribution')` (line 177). -/
inductive BuildError where
  | invalidVersion
  | unknownDistro
deriving DecidableEq, Repr

/-- `os.path.join(a, b)` for the two-argument uses in hdf5.py: an absolute
second component discards the first; otherwise a `/` separator is inserted
unless `a` already ends with one or is empty. -/
def osPathJoin (a b : String) : String :=
  if b.data.head? = some '/' then b
  else if a = "" ∨ a.data.getLast? = some '/' then a ++ b
  else a ++ "/" ++ b

/-- Embedding of `re.match(r'(?P<major>\d+)\.(?P<minor>\d+)', version)`
(hdf5.py line 186): the match succeeds iff the string begins with a
nonempty digit run, a dot, and a nonempty digit run, and then the `major`
group is the maximal leading digit run and `minor` the maximal digit run
after the dot (greedy `\d+` with no possible backtracking).  ASCII digits;
the sources only exercise ASCII version strings. -/
def parseMajorMinor (v : String) : Option (String × String) :=
  let maj := v.data.takeWhile Char.isDigit
  match v.data.drop maj.length with
  | '.' :: rest =>
      let mnr := rest.takeWhile Char.isDigit
      if maj = [] ∨ mnr = [] then none
      else some (String.mk maj, String.mk mnr)
  | _ => none

/-- `tarball = 'hdf5-{}.tar.bz2'.format(version)` (hdf5.py line 189). -/
def tarballOf (version : String) : String :=
  "hdf5-" ++ version ++ ".tar.bz2"

/-- The extracted directory name `'hdf5-{}'.format(version)`
(hdf5.py lines 207 and 234). -/
def extractedDirOf (version : String) : String :=
  "hdf5-" ++ version

/-- `url = '{0}/hdf5-{1}/hdf5-{2}/src/{3}'.format(baseurl, major_minor,
version, tarball)` (hdf5.py lines 190-192). -/
def urlOf (baseurl major_minor version : String) : String :=
  baseurl ++ "/hdf5-" ++ major_minor ++ "/hdf5-" ++ version ++ "/src/" ++
    tarballOf version

/-- Embedding of `hdf5.__distro` (hdf5.py lines 162-177): resolves the
build-time OS package list (user list passed through when non-empty, distro
default otherwise) and the runtime OS package list (always distro-derived);
raises for an unknown distribution. -/
def hdf5_distro (d : LinuxDistro) (user : List String) :
    Except BuildError (List String × List String) :=
  match d with
  | LinuxDistro.ubuntu =>
      Except.ok
        ((if user.isEmpty then ["bzip2", "file", "make", "wget", "zlib1g-dev"]
          else user), ["zlib1g"])
  | LinuxDistro.centos =>
      Except.ok
        ((if user.isEmpty then ["bzip2", "file", "make", "wget", "zlib-devel"]
          else user), ["zlib"])
  | LinuxDistro.other => Except.error BuildError.unknownDistro

/-- The command list built by `hdf5.__setup` (hdf5.py lines 194-234), in
append order: acquisition (configure-only for a local directory, else
download / untar / configure), build, optional check, install, optional
ldcache, cleanup of exactly the acquisition artifacts. -/
def hdf5Commands (directory version baseurl pfx wd : String)
    (chk ldcfg : Bool) (copts : List String) (tc : Toolchain)
    (major_minor : String) : List Step :=
  (if directory ≠ "" then
     [Step.configure (osPathJoin wd directory) copts tc pfx]
   else
     [Step.download (urlOf baseurl major_minor version) wd,
      Step.untar (osPathJoin wd (tarballOf version)) wd,
      Step.configure (osPathJoin wd (extractedDirOf version)) copts tc pfx])
  ++ [Step.build]
  ++ (if chk then [Step.check] else [])
  ++ [Step.install]
  ++ (if ldcfg then [Step.ldcache (osPathJoin pfx "lib")] else [])
  ++ (if directory ≠ "" then
       [Step.cleanup [osPathJoin wd directory]]
     else
       [Step.cleanup [osPathJoin wd (tarballOf version),
                      osPathJoin wd (extractedDirOf version)]])

/-- The environment-variable mapping: `HDF5_DIR` and `PATH` are set in
`hdf5.__init__` (lines 128-131); `LD_LIBRARY_PATH` is added by
`hdf5.__setup` (line 223) exactly when `ldconfig` is false.  Python dict
insertion order is kept as list order. -/
def hdf5Env (pfx : String) (ldcfg : Bool) : List (String × String) :=
  [("HDF5_DIR", pfx), ("PATH", osPathJoin pfx "bin" ++ ":$PATH")]
  ++ (if ldcfg then []
      else [("LD_LIBRARY_PATH", osPathJoin pfx "lib" ++ ":$LD_LIBRARY_PATH")])

/-- Embedding of `hdf5.__setup` (hdf5.py lines 179-234): parse the version
(aborting construction when the match fails), then produce the command list
and the final environment mapping. -/
def hdf5_setup (directory version baseurl pfx wd : String)
    (chk ldcfg : Bool) (copts : List String) (tc : Toolchain) :
    Except BuildError (List Step × List (String × String)) :=
  match parseMajorMinor version with
  | none => Except.error BuildError.invalidVersion
  | some (maj, mnr) =>
      Except.ok
        (hdf5Commands directory version baseurl pfx wd chk ldcfg copts tc
           (maj ++ "." ++ mnr),
         hdf5Env pfx ldcfg)

/-- The constructed `hdf5` object: the ComponentSpec attributes fixed in
`__init__` plus the derived command list and environment mapping.  `pfx`
embeds the Python attribute `prefix` (a Lean keyword). -/
structure Hdf5 where
  configure_opts : List String
  pfx : String
  baseurl : String
  check : Bool
  directory : String
  ospackages : List String
  runtime_ospackages : List String
  toolchain : Toolchain
  version : String
  ldconfig : Bool
  commands : List Step
  environment_variables : List (String × String)
  wd : String
deriving DecidableEq, Repr

/-- Default of `kwargs.get('configure_opts', ...)` (hdf5.py line 115). -/
def defaultConfigureOpts : List String :=
  ["--enable-cxx", "--enable-fortran"]

/-- Default of `kwargs.get('baseurl', ...)` (hdf5.py line 119). -/
def defaultBaseurl : String :=
  "http://www.hdfgroup.org/ftp/HDF5/releases"

/-- Embedding of `hdf5.__init__` (hdf5.py lines 110-141): apply the kwarg
defaults, run `__distro` then `__setup` (in that order, so an unknown
distribution aborts before the version is parsed), and assemble the object.
Each `k*` argument is `none` when the caller omitted the kwarg.  The
`ldconfig` kwarg is consumed by the `hpccm.templates.ldconfig` mixin, which
is not under the given source tree; modelled from the spec, its default is
`false`. -/
def hdf5_init (d : LinuxDistro) (kc : Option (List String))
    (kp kb : Option String) (kch : Option Bool) (kd : Option String)
    (ko : Option (List String)) (kt : Option Toolchain)
    (kv : Option String) (kl : Option Bool) : Except BuildError Hdf5 :=
  match hdf5_distro d (ko.getD []) with
  | Except.error e => Except.error e
  | Except.ok (osps, rosps) =>
      match hdf5_setup (kd.getD "") (kv.getD "1.10.4") (kb.getD defaultBaseurl)
          (kp.getD "/usr/local/hdf5") "/var/tmp" (kch.getD false)
          (kl.getD false) (kc.getD defaultConfigureOpts)
          (kt.getD Toolchain.default) with
      | Except.error e => Except.error e
      | Except.ok (cmds, env) =>
          Except.ok
            (Hdf5.mk (kc.getD defaultConfigureOpts)
              (kp.getD "/usr/local/hdf5") (kb.getD defaultBaseurl)
              (kch.getD false) (kd.getD "") osps rosps
              (kt.getD Toolchain.default) (kv.getD "1.10.4")
              (kl.getD false) cmds env "/var/tmp")

/-- Embedding of `hdf5.__instructions` (hdf5.py lines 143-160): comment,
package installation, the local-context copy when a directory was given,
the shell block of commands, and the environment instruction when the
mapping is non-empty. -/
def hdf5_instructions (h : Hdf5) : List Instruction :=
  (if h.directory ≠ "" then [Instruction.comment "HDF5"]
   else [Instruction.comment ("HDF5 version " ++ h.version)])
  ++ [Instruction.packages h.ospackages]
  ++ (if h.directory ≠ "" then
       [Instruction.copy none h.directory (osPathJoin h.wd h.directory)]
     else [])
  ++ [Instruction.shell h.commands]
  ++ (if h.environment_variables ≠ [] then
       [Instruction.environment h.environment_variables]
     else [])

/-- Embedding of `hdf5.runtime` (hdf5.py lines 236-260): comment, runtime
package installation, copy of the install tree from the prior stage
(source and destination both `self.prefix`), an ldcache shell block when
`ldconfig` is set, and the same environment mapping as the build stage. -/
def hdf5_runtime (h : Hdf5) (stageFrom : String) : List Instruction :=
  [Instruction.comment "HDF5",
   Instruction.packages h.runtime_ospackages,
   Instruction.copy (some stageFrom) h.pfx h.pfx]
  ++ (if h.ldconfig then
       [Instruction.shell [Step.ldcache (osPathJoin h.pfx "lib")]]
     else [])
  ++ (if h.environment_variables ≠ [] then
       [Instruction.environment h.environment_variables]
     else [])

/-- Discriminator for download steps. -/
def Step.isDownload : Step → Bool
  | Step.download _ _ => true
  | _ => false

/-- Discriminator for untar (extract) steps. -/
def Step.isUntar : Step → Bool
  | Step.untar _ _ => true
  | _ => false

/-- Discriminator for check steps. -/
def Step.isCheck : Step → Bool
  | Step.check => true
  | _ => false

/-- Discriminator for ldcache (library-cache-refresh) steps. -/
def Step.isLdcache : Step → Bool
  | Step.ldcache _ => true
  | _ => false

/-- Discriminator for cleanup steps. -/
def Step.isCleanup : Step → Bool
  | Step.cleanup _ => true
  | _ => false

/-- Discriminator for copy instructions. -/
def Instruction.isCopy : Instruction → Bool
  | Instruction.copy _ _ _ => true
  | _ => false

/-- Discriminator for package-installation instructions. -/
def Instruction.isPackages : Instruction → Bool
  | Instruction.packages _ => true
  | _ => false

/-- Discriminator for shell instructions. -/
def Instruction.isShell : Instruction → Bool
  | Instruction.shell _ => true
  | _ => false

/-- Discriminator for environment instructions. -/
def Instruction.isEnvironment : Instruction → Bool
  | Instruction.environment _ => true
  | _ => false

/-- Number of steps in a command list satisfying a discriminator. -/
def countStep (p : Step → Bool) (l : List Step) : Nat :=
  (l.filter p).length

/-- Number of instructions in a list satisfying a discriminator. -/
def countInstr (p : Instruction → Bool) (l : List Instruction) : Nat :=
  (l.filter p).length

/-- The object built by `hdf5()` with no keyword arguments on Ubuntu:
every attribute takes its default, the source is downloaded. -/
def hUbuntuDefault : Hdf5 :=
  Hdf5.mk ["--enable-cxx", "--enable-fortran"] "/usr/local/hdf5"
    "http://www.hdfgroup.org/ftp/HDF5/releases" false ""
    ["bzip2", "file", "make", "wget", "zlib1g-dev"] ["zlib1g"]
    Toolchain.default "1.10.4" false
    [Step.download
       "http://www.hdfgroup.org/ftp/HDF5/releases/hdf5-1.10/hdf5-1.10.4/src/hdf5-1.10.4.tar.bz2"
       "/var/tmp",
     Step.untar "/var/tmp/hdf5-1.10.4.tar.bz2" "/var/tmp",
     Step.configure "/var/tmp/hdf5-1.10.4" ["--enable-cxx", "--enable-fortran"]
       Toolchain.default "/usr/local/hdf5",
     Step.build, Step.install,
     Step.cleanup ["/var/tmp/hdf5-1.10.4.tar.bz2", "/var/tmp/hdf5-1.10.4"]]
    [("HDF5_DIR", "/usr/local/hdf5"), ("PATH", "/usr/local/hdf5/bin:$PATH"),
     ("LD_LIBRARY_PATH", "/usr/local/hdf5/lib:$LD_LIBRARY_PATH")]
    "/var/tmp"

/-- The object built by `hdf5(check=True)` on Ubuntu: a `make check` step
is inserted between build and install. -/
def hCheckTrue : Hdf5 :=
  Hdf5.mk ["--enable-cxx", "--enable-fortran"] "/usr/local/hdf5"
    "http://www.hdfgroup.org/ftp/HDF5/releases" true ""
    ["bzip2", "file", "make", "wget", "zlib1g-dev"] ["zlib1g"]
    Toolchain.default "1.10.4" false
    [Step.download
       "http://www.hdfgroup.org/ftp/HDF5/releases/hdf5-1.10/hdf5-1.10.4/src/hdf5-1.10.4.tar.bz2"
       "/var/tmp",
     Step.untar "/var/tmp/hdf5-1.10.4.tar.bz2" "/var/tmp",
     Step.configure "/var/tmp/hdf5-1.10.4" ["--enable-cxx", "--enable-fortran"]
       Toolchain.default "/usr/local/hdf5",
     Step.build, Step.check, Step.install,
     Step.cleanup ["/var/tmp/hdf5-1.10.4.tar.bz2", "/var/tmp/hdf5-1.10.4"]]
    [("HDF5_DIR", "/usr/local/hdf5"), ("PATH", "/usr/local/hdf5/bin:$PATH"),
     ("LD_LIBRARY_PATH", "/usr/local/hdf5/lib:$LD_LIBRARY_PATH")]
    "/var/tmp"

/-- The object built by `hdf5(ldconfig=True)` on Ubuntu: an ldcache step is
emitted and `LD_LIBRARY_PATH` is not set. -/
def hLdconfigTrue : Hdf5 :=
  Hdf5.mk ["--enable-cxx", "--enable-fortran"] "/usr/local/hdf5"
    "http://www.hdfgroup.org/ftp/HDF5/releases" false ""
    ["bzip2", "file", "make", "wget", "zlib1g-dev"] ["zlib1g"]
    Toolchain.default "1.10.4" true
    [Step.download
       "http://www.hdfgroup.org/ftp/HDF5/releases/hdf5-1.10/hdf5-1.10.4/src/hdf5-1.10.4.tar.bz2"
       "/var/tmp",
     Step.untar "/var/tmp/hdf5-1.10.4.tar.bz2" "/var/tmp",
     Step.configure "/var/tmp/hdf5-1.10.4" ["--enable-cxx", "--enable-fortran"]
       Toolchain.default "/usr/local/hdf5",
     Step.build, Step.install,
     Step.ldcache "/usr/local/hdf5/lib",
     Step.cleanup ["/var/tmp/hdf5-1.10.4.tar.bz2", "/var/tmp/hdf5-1.10.4"]]
    [("HDF5_DIR", "/usr/local/hdf5"), ("PATH", "/usr/local/hdf5/bin:$PATH")]
    "/var/tmp"

/-- The object built by `hdf5(directory='sources/hdf5-1.10.1')` on Ubuntu:
the source comes from the local build context. -/
def hLocalDir : Hdf5 :=
  Hdf5.mk ["--enable-cxx", "--enable-fortran"] "/usr/local/hdf5"
    "http://www.hdfgroup.org/ftp/HDF5/releases" false "sources/hdf5-1.10.1"
    ["bzip2", "file", "make", "wget", "zlib1g-dev"] ["zlib1g"]
    Toolchain.default "1.10.4" false
    [Step.configure "/var/tmp/sources/hdf5-1.10.1"
       ["--enable-cxx", "--enable-fortran"] Toolchain.default
       "/usr/local/hdf5",
     Step.build, Step.install,
     Step.cleanup ["/var/tmp/sources/hdf5-1.10.1"]]
    [("HDF5_DIR", "/usr/local/hdf5"), ("PATH", "/usr/local/hdf5/bin:$PATH"),
     ("LD_LIBRARY_PATH", "/usr/local/hdf5/lib:$LD_LIBRARY_PATH")]
    "/var/tmp"

/-- Inversion of a successful construction: the version parsed, the distro
was recognized, and the object's derived parts are exactly `hdf5Commands`
and `hdf5Env` applied to its own attributes. -/
theorem hdf5_init_ok_inv (d : LinuxDistro) (kc : Option (List String))
    (kp kb : Option String) (kch : Option Bool) (kd : Option String)
    (ko : Option (List String)) (kt : Option Toolchain) (kv : Option String)
    (kl : Option Bool) (h : Hdf5)
    (hin : hdf5_init d kc kp kb kch kd ko kt kv kl = Except.ok h) :
    ∃ maj mnr,
      parseMajorMinor h.version = some (maj, mnr) ∧
      h.commands = hdf5Commands h.directory h.version h.baseurl h.pfx h.wd
        h.check h.ldconfig h.configure_opts h.toolchain (maj ++ "." ++ mnr) ∧
      h.environment_variables = hdf5Env h.pfx h.ldconfig ∧
      h.check = kch.getD false ∧ h.directory = kd.getD "" ∧
      h.version = kv.getD "1.10.4" ∧ h.ldconfig = kl.getD false ∧
      h.pfx = kp.getD "/usr/local/hdf5" ∧ h.wd = "/var/tmp" ∧
      hdf5_distro d (ko.getD []) =
        Except.ok (h.ospackages, h.runtime_ospackages) := by
  unfold hdf5_init at hin
  cases hdist : hdf5_distro d (ko.getD []) with
  | error e => rw [hdist] at hin; simp at hin
  | ok pr =>
    obtain ⟨osps, rosps⟩ := pr
    rw [hdist] at hin
    unfold hdf5_setup at hin
    cases hp : parseMajorMinor (kv.getD "1.10.4") with
    | none => rw [hp] at hin; simp at hin
    | some mm =>
      obtain ⟨maj, mnr⟩ := mm
      rw [hp] at hin
      simp only [] at hin
      cases hin
      exact ⟨maj, mnr, hp, rfl, rfl, rfl, rfl, rfl, rfl, rfl, rfl, rfl⟩

/-- Construction succeeds whenever the distribution is recognized and the
(defaulted) version parses, and the result is the expected object. -/
theorem hdf5_init_eq_ok (d : LinuxDistro) (kc : Option (List String))
    (kp kb : Option String) (kch : Option Bool) (kd : Option String)
    (ko : Option (List String)) (kt : Option Toolchain) (kv : Option String)
    (kl : Option Bool) (hd : d ≠ LinuxDistro.other) (maj mnr : String)
    (hp : parseMajorMinor (kv.getD "1.10.4") = some (maj, mnr)) :
    ∃ osps rosps,
      hdf5_distro d (ko.getD []) = Except.ok (osps, rosps) ∧
      hdf5_init d kc kp kb kch kd ko kt kv kl =
        Except.ok
          (Hdf5.mk (kc.getD defaultConfigureOpts) (kp.getD "/usr/local/hdf5")
            (kb.getD defaultBaseurl) (kch.getD false) (kd.getD "") osps rosps
            (kt.getD Toolchain.default) (kv.getD "1.10.4") (kl.getD false)
            (hdf5Commands (kd.getD "") (kv.getD "1.10.4") (kb.getD defaultBaseurl)
              (kp.getD "/usr/local/hdf5") "/var/tmp" (kch.getD false)
              (kl.getD false) (kc.getD defaultConfigureOpts)
              (kt.getD Toolchain.default) (maj ++ "." ++ mnr))
            (hdf5Env (kp.getD "/usr/local/hdf5") (kl.getD false)) "/var/tmp") := by
  cases d with
  | other => exact absurd rfl hd
  | ubuntu =>
    refine ⟨_, _, rfl, ?_⟩
    unfold hdf5_init hdf5_setup
    rw [hp]
    rfl
  | centos =>
    refine ⟨_, _, rfl, ?_⟩
    unfold hdf5_init hdf5_setup
    rw [hp]
    rfl

/-- String concatenation is associative (needed to restate the composed
download URL independently of the grouping used in `urlOf`). -/
theorem string_append_assoc (a b c : String) : a ++ b ++ c = a ++ (b ++ c) :=
  String.append_assoc a b c

/-- C9: for a distribution outside the known families, construction fails
with the unknown-distribution error regardless of every other attribute. -/
theorem hdf5_unknown_distro_aborts (kc : Option (List String))
    (kp kb : Option String) (kch : Option Bool) (kd : Option String)
    (ko : Option (List String)) (kt : Option Toolchain) (kv : Option String)
    (kl : Option Bool) :
    hdf5_init LinuxDistro.other kc kp kb kch kd ko kt kv kl =
      Except.error BuildError.unknownDistro :=
  rfl

/-- C8: a version string that does not begin with two dot-separated numeric
components makes construction fail with the invalid-version error (on any
recognized distribution); no object is produced. -/
theorem hdf5_invalid_version_aborts (d : LinuxDistro)
    (kc : Option (List String)) (kp kb : Option String) (kch : Option Bool)
    (kd : Option String) (ko : Option (List String)) (kt : Option Toolchain)
    (v : String) (kl : Option Bool) (hd : d ≠ LinuxDistro.other)
    (hv : parseMajorMinor v = none) :
    hdf5_init d kc kp kb kch kd ko kt (some v) kl =
      Except.error BuildError.invalidVersion := by
  cases d with
  | other => exact absurd rfl hd
  | ubuntu =>
    unfold hdf5_init hdf5_setup
    rw [show (some v).getD "1.10.4" = v from rfl, hv]
    rfl
  | centos =>
    unfold hdf5_init hdf5_setup
    rw [show (some v).getD "1.10.4" = v from rfl, hv]
    rfl

/-- C8 witness: the version `"abc"` does not parse and construction with it
fails with the invalid-version error. -/
theorem hdf5_invalid_version_aborts_witness :
    LinuxDistro.ubuntu ≠ LinuxDistro.other ∧
    parseMajorMinor "abc" = none ∧
    hdf5_init LinuxDistro.ubuntu none none none none none none none
      (some "abc") none = Except.error BuildError.invalidVersion :=
  ⟨by decide, rfl,
   hdf5_invalid_version_aborts LinuxDistro.ubuntu none none none none none
     none none "abc" none (by decide) rfl⟩

/-- C10: with a local source directory set, the version string is still
parsed unconditionally: an unparsable version aborts construction with the
invalid-version error even though the local-copy branch is selected, while
omitting the version keeps the default `1.10.4` and construction succeeds
with the local-copy branch. -/
theorem hdf5_directory_version_coupling (d : LinuxDistro)
    (kc : Option (List String)) (kp kb : Option String) (kch : Option Bool)
    (ko : Option (List String)) (kt : Option Toolchain) (kl : Option Bool)
    (dir v : String) (hdir : dir ≠ "") (hd : d ≠ LinuxDistro.other)
    (hv : parseMajorMinor v = none) :
    hdf5_init d kc kp kb kch (some dir) ko kt (some v) kl =
      Except.error BuildError.invalidVersion ∧
    ∃ h, hdf5_init d kc kp kb kch (some dir) ko kt none kl = Except.ok h ∧
      h.directory = dir ∧ h.version = "1.10.4" := by
  refine ⟨hdf5_invalid_version_aborts d kc kp kb kch (some dir) ko kt v kl hd hv, ?_⟩
  obtain ⟨osps, rosps, -, hok⟩ :=
    hdf5_init_eq_ok d kc kp kb kch (some dir) ko kt none kl hd "1" "10" rfl
  exact ⟨_, hok, rfl, rfl⟩

/-- C10 witness: directory `"sources/hdf5"` with version `"vX"` aborts, and
with the version omitted construction succeeds on the local-copy branch. -/
theorem hdf5_directory_version_coupling_witness :
    ("sources/hdf5" ≠ "") ∧ LinuxDistro.ubuntu ≠ LinuxDistro.other ∧
    parseMajorMinor "vX" = none ∧
    (hdf5_init LinuxDistro.ubuntu none none none none (some "sources/hdf5")
       none none (some "vX") none = Except.error BuildError.invalidVersion ∧
     ∃ h, hdf5_init LinuxDistro.ubuntu none none none none
         (some "sources/hdf5") none none none none = Except.ok h ∧
       h.directory = "sources/hdf5" ∧ h.version = "1.10.4") :=
  ⟨by decide, by decide, rfl,
   hdf5_directory_version_coupling LinuxDistro.ubuntu none none none none
     none none none "sources/hdf5" "vX" (by decide) (by decide) rfl⟩

/-- C7 counterexample: with neither `directory` nor `version` supplied,
construction does not fail at all — it succeeds and produces the default
download recipe (the version defaults to `1.10.4`), so no missing-source
error is raised. -/
theorem hdf5_missing_source_counterexample :
    hdf5_init LinuxDistro.ubuntu none none none none none none none none
      none = Except.ok hUbuntuDefault :=
  rfl

/-- C7 amended: when neither `directory` nor `version` is given, the version
defaults to `1.10.4`, the remote-download strategy is selected, and
construction succeeds on any recognized distribution (no missing-source
error exists in the code). -/
theorem hdf5_default_version_download (d : LinuxDistro)
    (hd : d ≠ LinuxDistro.other) :
    ∃ h, hdf5_init d none none none none none none none none none =
        Except.ok h ∧
      h.version = "1.10.4" ∧ h.directory = "" ∧
      countStep Step.isDownload h.commands = 1 := by
  obtain ⟨osps, rosps, -, hok⟩ :=
    hdf5_init_eq_ok d none none none none none none none none none hd
      "1" "10" rfl
  exact ⟨_, hok, rfl, rfl, rfl⟩

/-- C7 amended witness: the all-defaults Ubuntu construction succeeds with
version `1.10.4` and one download step. -/
theorem hdf5_default_version_download_witness :
    LinuxDistro.ubuntu ≠ LinuxDistro.other ∧
    ∃ h, hdf5_init LinuxDistro.ubuntu none none none none none none none
        none none = Except.ok h ∧
      h.version = "1.10.4" ∧ h.directory = "" ∧
      countStep Step.isDownload h.commands = 1 :=
  ⟨by decide, hdf5_default_version_download LinuxDistro.ubuntu (by decide)⟩

/-- C3: for every version beginning with numeric `MAJOR.MINOR` components
and every base URL, the mapper yields tarball `hdf5-<version>.tar.bz2`,
extracted directory `hdf5-<version>`, and URL
`<baseUrl>/hdf5-<MAJOR.MINOR>/hdf5-<version>/src/<tarball>`; in particular
version `1.10.4` with base URL `http://example/releases` yields
`http://example/releases/hdf5-1.10/hdf5-1.10.4/src/hdf5-1.10.4.tar.bz2`. -/
theorem hdf5_version_url_mapping (version baseurl maj mnr : String)
    (hp : parseMajorMinor version = some (maj, mnr)) :
    tarballOf version = "hdf5-" ++ version ++ ".tar.bz2" ∧
    extractedDirOf version = "hdf5-" ++ version ∧
    urlOf baseurl (maj ++ "." ++ mnr) version =
      baseurl ++ "/hdf5-" ++ maj ++ "." ++ mnr ++ "/hdf5-" ++ version ++
        "/src/" ++ "hdf5-" ++ version ++ ".tar.bz2" ∧
    parseMajorMinor "1.10.4" = some ("1", "10") ∧
    urlOf "http://example/releases" ("1" ++ "." ++ "10") "1.10.4" =
      "http://example/releases/hdf5-1.10/hdf5-1.10.4/src/hdf5-1.10.4.tar.bz2" := by
  refine ⟨rfl, rfl, ?_, rfl, rfl⟩
  simp only [urlOf, tarballOf, String.append_assoc]

/-- C3 witness: the mapping evaluated at version `1.10.4`. -/
theorem hdf5_version_url_mapping_witness :
    parseMajorMinor "1.10.4" = some ("1", "10") ∧
    (tarballOf "1.10.4" = "hdf5-" ++ "1.10.4" ++ ".tar.bz2" ∧
     extractedDirOf "1.10.4" = "hdf5-" ++ "1.10.4" ∧
     urlOf "http://example/releases" ("1" ++ "." ++ "10") "1.10.4" =
       "http://example/releases" ++ "/hdf5-" ++ "1" ++ "." ++ "10" ++
         "/hdf5-" ++ "1.10.4" ++ "/src/" ++ "hdf5-" ++ "1.10.4" ++
         ".tar.bz2" ∧
     parseMajorMinor "1.10.4" = some ("1", "10") ∧
     urlOf "http://example/releases" ("1" ++ "." ++ "10") "1.10.4" =
       "http://example/releases/hdf5-1.10/hdf5-1.10.4/src/hdf5-1.10.4.tar.bz2") :=
  ⟨rfl, hdf5_version_url_mapping "1.10.4" "http://example/releases" "1" "10" rfl⟩

/-- C4: a non-empty caller-supplied build package list is passed through
unchanged on every recognized distribution, and an empty list resolves to
the distribution defaults — on Ubuntu (Debian family) build packages
`bzip2, file, make, wget, zlib1g-dev` and runtime packages `zlib1g`, on
CentOS (RHEL family) `bzip2, file, make, wget, zlib-devel` and `zlib`. -/
theorem hdf5_ospackages_resolution (d : LinuxDistro) (user : List String)
    (hu : user ≠ []) (hd : d ≠ LinuxDistro.other) :
    (∃ r, hdf5_distro d user = Except.ok (user, r)) ∧
    hdf5_distro LinuxDistro.ubuntu [] =
      Except.ok (["bzip2", "file", "make", "wget", "zlib1g-dev"], ["zlib1g"]) ∧
    hdf5_distro LinuxDistro.centos [] =
      Except.ok (["bzip2", "file", "make", "wget", "zlib-devel"], ["zlib"]) := by
  refine ⟨?_, rfl, rfl⟩
  cases d with
  | other => exact absurd rfl hd
  | ubuntu =>
    refine ⟨["zlib1g"], ?_⟩
    cases user with
    | nil => exact absurd rfl hu
    | cons a t => rfl
  | centos =>
    refine ⟨["zlib"], ?_⟩
    cases user with
    | nil => exact absurd rfl hu
    | cons a t => rfl

/-- C4 witness: the caller-supplied list `["libfoo"]` survives resolution
unchanged on Ubuntu. -/
theorem hdf5_ospackages_resolution_witness :
    (["libfoo"] ≠ ([] : List String)) ∧
    LinuxDistro.ubuntu ≠ LinuxDistro.other ∧
    ((∃ r, hdf5_distro LinuxDistro.ubuntu ["libfoo"] =
        Except.ok (["libfoo"], r)) ∧
     hdf5_distro LinuxDistro.ubuntu [] =
       Except.ok (["bzip2", "file", "make", "wget", "zlib1g-dev"], ["zlib1g"]) ∧
     hdf5_distro LinuxDistro.centos [] =
       Except.ok (["bzip2", "file", "make", "wget", "zlib-devel"], ["zlib"])) :=
  ⟨by decide, by decide,
   hdf5_ospackages_resolution LinuxDistro.ubuntu ["libfoo"] (by decide)
     (by decide)⟩

/-- C1: the `ldconfig` flag selects exactly one of two outcomes: when true,
the command list contains the library-cache-refresh step over
`<installPrefix>/lib` and the environment mapping has no `LD_LIBRARY_PATH`
entry; when false, no library-cache-refresh step is emitted and the mapping
has the prepend entry `<installPrefix>/lib:$LD_LIBRARY_PATH`. -/
theorem hdf5_ldconfig_dichotomy (d : LinuxDistro) (kc : Option (List String))
    (kp kb : Option String) (kch : Option Bool) (kd : Option String)
    (ko : Option (List String)) (kt : Option Toolchain) (kv : Option String)
    (kl : Option Bool) (h : Hdf5)
    (hin : hdf5_init d kc kp kb kch kd ko kt kv kl = Except.ok h) :
    (h.ldconfig = true →
       Step.ldcache (osPathJoin h.pfx "lib") ∈ h.commands ∧
       h.environment_variables.lookup "LD_LIBRARY_PATH" = none) ∧
    (h.ldconfig = false →
       countStep Step.isLdcache h.commands = 0 ∧
       h.environment_variables.lookup "LD_LIBRARY_PATH" =
         some (osPathJoin h.pfx "lib" ++ ":$LD_LIBRARY_PATH")) := by
  obtain ⟨maj, mnr, hp, hcmd, henv, hck, hdirv, hver, hld, hpfx, hwd, hdist⟩ :=
    hdf5_init_ok_inv d kc kp kb kch kd ko kt kv kl h hin
  constructor
  · intro hl
    rw [hl] at hcmd henv
    refine ⟨?_, ?_⟩
    · rw [hcmd]
      by_cases hdir : h.directory = "" <;> simp [hdf5Commands, hdir]
    · rw [henv]
      rfl
  · intro hl
    rw [hl] at hcmd henv
    refine ⟨?_, ?_⟩
    · rw [hcmd]
      cases hc : h.check <;> by_cases hdir : h.directory = "" <;>
        simp [hdf5Commands, hdir, countStep, Step.isLdcache]
    · rw [henv]
      rfl

/-- C1 witness: the `ldconfig=True` Ubuntu object has the ldcache step and
no `LD_LIBRARY_PATH` entry. -/
theorem hdf5_ldconfig_dichotomy_witness :
    (hLdconfigTrue.ldconfig = true →
       Step.ldcache (osPathJoin hLdconfigTrue.pfx "lib") ∈
         hLdconfigTrue.commands ∧
       hLdconfigTrue.environment_variables.lookup "LD_LIBRARY_PATH" = none) ∧
    (hLdconfigTrue.ldconfig = false →
       countStep Step.isLdcache hLdconfigTrue.commands = 0 ∧
       hLdconfigTrue.environment_variables.lookup "LD_LIBRARY_PATH" =
         some (osPathJoin hLdconfigTrue.pfx "lib" ++ ":$LD_LIBRARY_PATH")) :=
  hdf5_ldconfig_dichotomy LinuxDistro.ubuntu none none none none none none
    none none (some true) hLdconfigTrue rfl

/-- C5: without `check` the command list has no check step; with `check`
it has exactly one, and the list splits around the contiguous
build-check-install subsequence, so the check step sits after the build
step and before the install step. -/
theorem hdf5_check_step_placement (d : LinuxDistro) (kc : Option (List String))
    (kp kb : Option String) (kch : Option Bool) (kd : Option String)
    (ko : Option (List String)) (kt : Option Toolchain) (kv : Option String)
    (kl : Option Bool) (h : Hdf5)
    (hin : hdf5_init d kc kp kb kch kd ko kt kv kl = Except.ok h) :
    (h.check = false → countStep Step.isCheck h.commands = 0) ∧
    (h.check = true →
       countStep Step.isCheck h.commands = 1 ∧
       ∃ A B, h.commands = A ++ [Step.build, Step.check, Step.install] ++ B) := by
  obtain ⟨maj, mnr, hp, hcmd, henv, hck, hdirv, hver, hld, hpfx, hwd, hdist⟩ :=
    hdf5_init_ok_inv d kc kp kb kch kd ko kt kv kl h hin
  constructor
  · intro hc
    rw [hc] at hcmd
    rw [hcmd]
    by_cases hdir : h.directory = "" <;> cases hl : h.ldconfig <;>
      simp [hdf5Commands, hdir, countStep, Step.isCheck]
  · intro hc
    rw [hc] at hcmd
    constructor
    · rw [hcmd]
      by_cases hdir : h.directory = "" <;> cases hl : h.ldconfig <;>
        simp [hdf5Commands, hdir, countStep, Step.isCheck]
    · rw [hcmd]
      by_cases hdir : h.directory = ""
      · refine ⟨[Step.download (urlOf h.baseurl (maj ++ "." ++ mnr) h.version)
                   h.wd,
                 Step.untar (osPathJoin h.wd (tarballOf h.version)) h.wd,
                 Step.configure (osPathJoin h.wd (extractedDirOf h.version))
                   h.configure_opts h.toolchain h.pfx],
                (if h.ldconfig then [Step.ldcache (osPathJoin h.pfx "lib")]
                 else []) ++
                  [Step.cleanup [osPathJoin h.wd (tarballOf h.version),
                                 osPathJoin h.wd (extractedDirOf h.version)]],
                ?_⟩
        simp [hdf5Commands, hdir]
      · refine ⟨[Step.configure (osPathJoin h.wd h.directory)
                   h.configure_opts h.toolchain h.pfx],
                (if h.ldconfig then [Step.ldcache (osPathJoin h.pfx "lib")]
                 else []) ++
                  [Step.cleanup [osPathJoin h.wd h.directory]], ?_⟩
        simp [hdf5Commands, hdir]

/-- C5 witness: the `check=True` Ubuntu object has exactly one check step,
between build and install. -/
theorem hdf5_check_step_placement_witness :
    (hCheckTrue.check = false →
       countStep Step.isCheck hCheckTrue.commands = 0) ∧
    (hCheckTrue.check = true →
       countStep Step.isCheck hCheckTrue.commands = 1 ∧
       ∃ A B, hCheckTrue.commands =
         A ++ [Step.build, Step.check, Step.install] ++ B) :=
  hdf5_check_step_placement LinuxDistro.ubuntu none none none (some true)
    none none none none none hCheckTrue rfl

/-- C2: with a local source directory, the instruction list has exactly one
copy-acquisition step, the commands have zero download and zero extract
steps, and the single cleanup step removes exactly the copy destination;
with only a version, the commands have exactly one download and one extract
step and the single cleanup step removes exactly the tarball path and the
extracted directory path. -/
theorem hdf5_acquisition_cleanup_exact (d : LinuxDistro)
    (kc : Option (List String)) (kp kb : Option String) (kch : Option Bool)
    (kd : Option String) (ko : Option (List String)) (kt : Option Toolchain)
    (kv : Option String) (kl : Option Bool) (h : Hdf5)
    (hin : hdf5_init d kc kp kb kch kd ko kt kv kl = Except.ok h) :
    (h.directory ≠ "" →
       countInstr Instruction.isCopy (hdf5_instructions h) = 1 ∧
       Instruction.copy none h.directory (osPathJoin h.wd h.directory) ∈
         hdf5_instructions h ∧
       countStep Step.isDownload h.commands = 0 ∧
       countStep Step.isUntar h.commands = 0 ∧
       countStep Step.isCleanup h.commands = 1 ∧
       Step.cleanup [osPathJoin h.wd h.directory] ∈ h.commands) ∧
    (h.directory = "" →
       countInstr Instruction.isCopy (hdf5_instructions h) = 0 ∧
       countStep Step.isDownload h.commands = 1 ∧
       countStep Step.isUntar h.commands = 1 ∧
       countStep Step.isCleanup h.commands = 1 ∧
       Step.cleanup [osPathJoin h.wd (tarballOf h.version),
                     osPathJoin h.wd (extractedDirOf h.version)] ∈
         h.commands) := by
  obtain ⟨maj, mnr, hp, hcmd, henv, hck, hdirv, hver, hld, hpfx, hwd, hdist⟩ :=
    hdf5_init_ok_inv d kc kp kb kch kd ko kt kv kl h hin
  have henvne : h.environment_variables ≠ [] := by
    rw [henv]; cases hl : h.ldconfig <;> simp [hdf5Env]
  constructor
  · intro hdir
    refine ⟨?_, ?_, ?_, ?_, ?_, ?_⟩
    · simp [hdf5_instructions, countInstr, hdir, henvne, Instruction.isCopy]
    · simp [hdf5_instructions, hdir, henvne]
    · rw [hcmd]
      cases hc : h.check <;> cases hl : h.ldconfig <;>
        simp [hdf5Commands, hdir, countStep, Step.isDownload]
    · rw [hcmd]
      cases hc : h.check <;> cases hl : h.ldconfig <;>
        simp [hdf5Commands, hdir, countStep, Step.isUntar]
    · rw [hcmd]
      cases hc : h.check <;> cases hl : h.ldconfig <;>
        simp [hdf5Commands, hdir, countStep, Step.isCleanup]
    · rw [hcmd]
      simp [hdf5Commands, hdir]
  · intro hdir
    refine ⟨?_, ?_, ?_, ?_, ?_⟩
    · simp [hdf5_instructions, countInstr, hdir, henvne, Instruction.isCopy]
    · rw [hcmd]
      cases hc : h.check <;> cases hl : h.ldconfig <;>
        simp [hdf5Commands, hdir, countStep, Step.isDownload]
    · rw [hcmd]
      cases hc : h.check <;> cases hl : h.ldconfig <;>
        simp [hdf5Commands, hdir, countStep, Step.isUntar]
    · rw [hcmd]
      cases hc : h.check <;> cases hl : h.ldconfig <;>
        simp [hdf5Commands, hdir, countStep, Step.isCleanup]
    · rw [hcmd]
      simp [hdf5Commands, hdir]

/-- C2 witness: the local-directory Ubuntu object has one copy instruction,
no download/extract steps, and its cleanup removes the copy destination. -/
theorem hdf5_acquisition_cleanup_exact_witness :
    (hLocalDir.directory ≠ "" →
       countInstr Instruction.isCopy (hdf5_instructions hLocalDir) = 1 ∧
       Instruction.copy none hLocalDir.directory
           (osPathJoin hLocalDir.wd hLocalDir.directory) ∈
         hdf5_instructions hLocalDir ∧
       countStep Step.isDownload hLocalDir.commands = 0 ∧
       countStep Step.isUntar hLocalDir.commands = 0 ∧
       countStep Step.isCleanup hLocalDir.commands = 1 ∧
       Step.cleanup [osPathJoin hLocalDir.wd hLocalDir.directory] ∈
         hLocalDir.commands) ∧
    (hLocalDir.directory = "" →
       countInstr Instruction.isCopy (hdf5_instructions hLocalDir) = 0 ∧
       countStep Step.isDownload hLocalDir.commands = 1 ∧
       countStep Step.isUntar hLocalDir.commands = 1 ∧
       countStep Step.isCleanup hLocalDir.commands = 1 ∧
       Step.cleanup [osPathJoin hLocalDir.wd (tarballOf hLocalDir.version),
                     osPathJoin hLocalDir.wd
                       (extractedDirOf hLocalDir.version)] ∈
         hLocalDir.commands) :=
  hdf5_acquisition_cleanup_exact LinuxDistro.ubuntu none none none none
    (some "sources/hdf5-1.10.1") none none none none hLocalDir rfl

/-- C6: the runtime instruction list copies the install tree with source
and destination both equal to the install location (for every stage
identifier), installs exactly the runtime package set resolved at
construction, contains a library-cache-refresh shell block iff `ldconfig`
is set, and carries the identical environment mapping as the build-stage
instruction list. -/
theorem hdf5_runtime_projection (d : LinuxDistro) (kc : Option (List String))
    (kp kb : Option String) (kch : Option Bool) (kd : Option String)
    (ko : Option (List String)) (kt : Option Toolchain) (kv : Option String)
    (kl : Option Bool) (h : Hdf5)
    (hin : hdf5_init d kc kp kb kch kd ko kt kv kl = Except.ok h)
    (stg : String) :
    Instruction.copy (some stg) h.pfx h.pfx ∈ hdf5_runtime h stg ∧
    countInstr Instruction.isCopy (hdf5_runtime h stg) = 1 ∧
    Instruction.packages h.runtime_ospackages ∈ hdf5_runtime h stg ∧
    countInstr Instruction.isPackages (hdf5_runtime h stg) = 1 ∧
    (h.ldconfig = true →
       Instruction.shell [Step.ldcache (osPathJoin h.pfx "lib")] ∈
         hdf5_runtime h stg) ∧
    (h.ldconfig = false →
       countInstr Instruction.isShell (hdf5_runtime h stg) = 0) ∧
    Instruction.environment h.environment_variables ∈ hdf5_runtime h stg ∧
    Instruction.environment h.environment_variables ∈ hdf5_instructions h := by
  obtain ⟨maj, mnr, hp, hcmd, henv, hck, hdirv, hver, hld, hpfx, hwd, hdist⟩ :=
    hdf5_init_ok_inv d kc kp kb kch kd ko kt kv kl h hin
  have henvne : h.environment_variables ≠ [] := by
    rw [henv]; cases hl : h.ldconfig <;> simp [hdf5Env]
  refine ⟨?_, ?_, ?_, ?_, ?_, ?_, ?_, ?_⟩
  · cases hl : h.ldconfig <;> simp [hdf5_runtime, hl, henvne]
  · cases hl : h.ldconfig <;>
      simp [hdf5_runtime, hl, henvne, countInstr, Instruction.isCopy]
  · cases hl : h.ldconfig <;> simp [hdf5_runtime, hl, henvne]
  · cases hl : h.ldconfig <;>
      simp [hdf5_runtime, hl, henvne, countInstr, Instruction.isPackages]
  · intro hl
    simp [hdf5_runtime, hl, henvne]
  · intro hl
    simp [hdf5_runtime, hl, henvne, countInstr, Instruction.isShell]
  · cases hl : h.ldconfig <;> simp [hdf5_runtime, hl, henvne]
  · by_cases hdir : h.directory = "" <;>
      simp [hdf5_instructions, hdir, henvne]

/-- C6 witness: the all-defaults Ubuntu object projected to a runtime stage
from stage `"0"`. -/
theorem hdf5_runtime_projection_witness :
    Instruction.copy (some "0") hUbuntuDefault.pfx hUbuntuDefault.pfx ∈
      hdf5_runtime hUbuntuDefault "0" ∧
    countInstr Instruction.isCopy (hdf5_runtime hUbuntuDefault "0") = 1 ∧
    Instruction.packages hUbuntuDefault.runtime_ospackages ∈
      hdf5_runtime hUbuntuDefault "0" ∧
    countInstr Instruction.isPackages (hdf5_runtime hUbuntuDefault "0") = 1 ∧
    (hUbuntuDefault.ldconfig = true →
       Instruction.shell [Step.ldcache (osPathJoin hUbuntuDefault.pfx "lib")] ∈
         hdf5_runtime hUbuntuDefault "0") ∧
    (hUbuntuDefault.ldconfig = false →
       countInstr Instruction.isShell (hdf5_runtime hUbuntuDefault "0") = 0) ∧
    Instruction.environment hUbuntuDefault.environment_variables ∈
      hdf5_runtime hUbuntuDefault "0" ∧
    Instruction.environment hUbuntuDefault.environment_variables ∈
      hdf5_instructions hUbuntuDefault :=
  hdf5_runtime_projection LinuxDistro.ubuntu none none none none none none
    none none none hUbuntuDefault rfl "0"

end Hpccm
